import Mathlib

set_option maxRecDepth 20000

namespace NSE500

/-- One OHLCV bar: a row of the price/volume DataFrame consumed by the strategy
(`fetch_ohlcv` keeps the columns Open, High, Low, Close, Volume). Prices and
volumes are modelled as rationals. -/
structure Bar where
  open_ : ℚ
  high : ℚ
  low : ℚ
  close : ℚ
  volume : ℚ
deriving DecidableEq

/-- Sum of a list of rationals. -/
def sumQ (xs : List ℚ) : ℚ := xs.foldr (· + ·) 0

/-- Clip from below at zero, `delta.clip(lower=0)` applied pointwise. -/
def clip0 (x : ℚ) : ℚ := if 0 ≤ x then x else 0

/-- Binary maximum written with an explicit comparison. -/
def maxQ (a b : ℚ) : ℚ := if a ≤ b then b else a

/-- The last `p` entries of a list: the window of `rolling(p)` at the final index. -/
def lastN (p : Nat) (xs : List ℚ) : List ℚ := xs.drop (xs.length - p)

/-- Pairwise differences of consecutive entries, i.e. `series.diff()` with the
leading NaN dropped (so the result is one shorter than the input). -/
def diffs : List ℚ → List ℚ
  | [] => []
  | [_] => []
  | a :: b :: t => (b - a) :: diffs (b :: t)

/-- Value of `series.rolling(p).mean()` at the final index; `none` models the NaN
produced by pandas when fewer than `p` values are available. -/
def rollMeanLast (p : Nat) (xs : List ℚ) : Option ℚ :=
  if 0 < p ∧ p ≤ xs.length then some (sumQ (lastN p xs) / p) else none

/-- Value of `series.rolling(p).max()` at the final index; `none` models NaN when
the window is not full. -/
def rollMaxLast (p : Nat) (xs : List ℚ) : Option ℚ :=
  if 0 < p ∧ p ≤ xs.length then
    match lastN p xs with
    | [] => none
    | y :: ys => some (ys.foldl maxQ y)
  else none

/-- Value at the final index of `rsi(series, period)` from trading_system.py:
`delta = series.diff(); gain = delta.clip(lower=0).rolling(period).mean();
loss = -delta.clip(upper=0).rolling(period).mean(); rs = gain/loss;
100 - 100/(1+rs)`. The rolling windows are full at the final index iff
`period ≤ (diffs closes).length`. The float edge cases of `gain/loss` are made
explicit: average loss 0 with average gain 0 gives NaN (`none`, the flat-series
case); average loss 0 with positive average gain gives `rs = +inf`, for which
`100 - 100/(1+rs)` saturates at 100. -/
def rsiLast (p : Nat) (closes : List ℚ) : Option ℚ :=
  let d := diffs closes
  if 0 < p ∧ p ≤ d.length then
    let w := lastN p d
    let avgGain := sumQ (w.map clip0) / p
    let avgLoss := sumQ (w.map fun x => clip0 (-x)) / p
    if avgLoss = 0 then
      if avgGain = 0 then none else some 100
    else some (100 - 100 / (1 + avgGain / avgLoss))
  else none

/-- NaN-aware `value < threshold`: a NaN (undefined) value compares false. -/
def oLT : Option ℚ → ℚ → Bool
  | some v, t => decide (v < t)
  | none, _ => false

/-- NaN-aware `value > threshold`: a NaN (undefined) value compares false. -/
def oGT : Option ℚ → ℚ → Bool
  | some v, t => decide (t < v)
  | none, _ => false

/-- NaN-aware `x > value` for a possibly undefined right-hand side. -/
def gtO (x : ℚ) : Option ℚ → Bool
  | some v => decide (v < x)
  | none => false

/-- NaN-aware `x ≥ value` for a possibly undefined right-hand side. -/
def geO (x : ℚ) : Option ℚ → Bool
  | some v => decide (v ≤ x)
  | none => false

/-- NaN-aware `a > b` on two possibly undefined values. -/
def oGTo : Option ℚ → Option ℚ → Bool
  | some a, some b => decide (b < a)
  | _, _ => false

/-- NaN-aware `x > c * value` (the volume-spike comparison). -/
def gtMulO (x c : ℚ) : Option ℚ → Bool
  | some v => decide (c * v < x)
  | none => false

/-- Float division `x / v` where `v` may be NaN; a non-finite result (division by
zero, or NaN input) is modelled as `none`. -/
def fdiv (x : ℚ) : Option ℚ → Option ℚ
  | some v => if v = 0 then none else some (x / v)
  | none => none

/-- Close column of a series. -/
def closes (df : List Bar) : List ℚ := df.map Bar.close

/-- High column of a series. -/
def highs (df : List Bar) : List ℚ := df.map Bar.high

/-- Volume column of a series. -/
def volumes (df : List Bar) : List ℚ := df.map Bar.volume

/-- The evidence dict built by check_buy:
`{"price": close, "RSI14": rsi14, "VolumeMultiple": volume / vol20}`.
The two derived entries may be NaN floats (modelled as `none`). -/
structure BuyInfo where
  price : ℚ
  RSI14 : Option ℚ
  volumeMultiple : Option ℚ
deriving DecidableEq

/-- bullish_confirmation from trading_system.py: the last bar closes above its own
open and above the previous bar's close (`df.iloc[-1]`, `df.iloc[-2]`). -/
def bullish_confirmation (df : List Bar) : Bool :=
  match df.getLast?, df.dropLast.getLast? with
  | some today, some prev =>
      decide (today.open_ < today.close) && decide (prev.close < today.close)
  | _, _ => false

/-- check_buy from trading_system.py. Fewer than 200 rows short-circuits to
`(False, {})` (the empty dict is modelled as `none`); otherwise the four rule
conditions are evaluated on the last row of the indicator-enriched frame and the
evidence dict is returned alongside the decision. -/
def check_buy (df : List Bar) : Bool × Option BuyInfo :=
  if df.length < 200 then (false, none)
  else
    match df.getLast? with
    | none => (false, none)
    | some last =>
      let rsi14 := rsiLast 14 (closes df)
      let rsi7 := rsiLast 7 (closes df)
      let rsi30 := rsiLast 30 (closes df)
      let ma50 := rollMeanLast 50 (closes df)
      let ma200 := rollMeanLast 200 (closes df)
      let vol20 := rollMeanLast 20 (volumes df)
      let cond_rsi := oLT rsi14 30 && oLT rsi7 35 && oLT rsi30 40
      let cond_trend := gtO last.close ma200 || oGTo ma50 ma200
      let cond_volume := gtMulO last.volume (5/2) vol20
      let cond_candle := bullish_confirmation df
      let buy := cond_rsi && cond_trend && cond_volume && cond_candle
      (buy, some { price := last.close, RSI14 := rsi14,
                   volumeMultiple := fdiv last.volume vol20 })

/-- Round half to even to an integer: the semantics of Python's builtin round. -/
def rndHalfEven (x : ℚ) : ℤ :=
  if x - ⌊x⌋ < 1/2 then ⌊x⌋
  else if 1/2 < x - ⌊x⌋ then ⌊x⌋ + 1
  else if ⌊x⌋ % 2 = 0 then ⌊x⌋ else ⌊x⌋ + 1

/-- Python `round(x, 2)` idealized over ℚ: decimal round half to even at two
decimal places. Python rounds the binary-float expansion of x, which agrees
with this away from exact decimal ties; at a tie (100x half-integral) the
float representation decides the direction, so only tie-free evaluations of
this function transfer to the program exactly. -/
def round2 (x : ℚ) : ℚ := (rndHalfEven (100 * x) : ℚ) / 100

/-- A position dict as stored in portfolio.json. `sell_price`/`sell_reason` are
absent (`none`) until the position is closed. -/
structure Position where
  symbol : String
  buy_price : ℚ
  buy_date : String
  stop_loss : ℚ
  target_price : ℚ
  status : String
  sell_price : Option ℚ := none
  sell_reason : Option String := none
deriving DecidableEq

/-- The position dict built by add_position: stop-loss `round(price*0.93, 2)`,
target `round(price*1.10, 2)`, status OPEN. The wall-clock timestamp
`datetime.now().isoformat()` is passed in explicitly as `date`. -/
def mkPosition (symbol : String) (price : ℚ) (date : String) : Position :=
  { symbol := symbol
    buy_price := price
    buy_date := date
    stop_loss := round2 (price * (93/100))
    target_price := round2 (price * (11/10))
    status := "OPEN" }

/-- add_position from trading_system.py with the portfolio file made an explicit
state: load, append the new position dict, save. -/
def add_position (port : List Position) (symbol : String) (price : ℚ)
    (date : String) : List Position :=
  port ++ [mkPosition symbol price date]

/-- check_sell from trading_system.py, with the data source (`fetch_ohlcv`) an
explicit parameter. An empty series returns `(False, "", 0.0)`; otherwise the
four exit rules are tried in order on the last enriched row. -/
def check_sell (fetch : String → List Bar) (pos : Position) : Bool × String × ℚ :=
  let df := fetch pos.symbol
  match df.getLast? with
  | none => (false, "", 0)
  | some last =>
    let price := last.close
    if price ≤ pos.stop_loss then (true, "STOP_LOSS", price)
    else if pos.target_price ≤ price then (true, "TARGET_HIT", price)
    else if oGT (rsiLast 14 (closes df)) 50 then (true, "RSI_EXIT", price)
    else if geO price (rollMaxLast 30 (highs df)) then (true, "SWING_HIGH_EXIT", price)
    else (false, "", price)

/-- Modelled from the spec: the Position Ledger `close` operation of §4.4 is not
present as a function in src/ (the orchestrators mutate a position dict inline
after filtering on status OPEN). Per §4.4 it requires the position to be OPEN,
sets status CLOSED with the exit fields, and fails loudly (assertion-level,
modelled as `Except.error`) on a position that is not OPEN. -/
def closePos (pos : Position) (exitPrice : ℚ) (reason : String) :
    Except String Position :=
  if pos.status = "OPEN" then
    Except.ok { pos with status := "CLOSED", sell_price := some exitPrice,
                         sell_reason := some reason }
  else
    Except.error "InvariantViolation: close called on a non-OPEN position"

/-- One row of the full scan trace built by run_scan. -/
structure ScanRow where
  symbol : String
  buy : Bool
  info : Option BuyInfo
deriving DecidableEq

/-- One row of the sell_rows table built by run_scan. -/
structure SellRow where
  symbol : String
  exit_price : ℚ
  reason : String
deriving DecidableEq

/-- Lookup `info["price"]` on the evidence dict (populated whenever the buy
decision can be true, since check_buy returns the dict on every path with
at least 200 rows). -/
def priceOf : Option BuyInfo → ℚ
  | some i => i.price
  | none => 0

/-- The BUY-scan loop of run_scan: iterate the universe, skip symbols with an
empty series, record a scan row for the rest, and call add_position on a buy
(add_position loads and saves the portfolio, so the appended position is
visible to everything that loads the portfolio afterwards). Returns the
portfolio after the loop, the scan_results rows and the buy_rows. -/
def buyPhase (fetch : String → List Bar) (date : String) :
    List String → List Position → List Position × List ScanRow × List ScanRow
  | [], port => (port, [], [])
  | s :: rest, port =>
    let df := fetch s
    if df.isEmpty then buyPhase fetch date rest port
    else
      let bi := check_buy df
      let row : ScanRow := { symbol := s, buy := bi.1, info := bi.2 }
      let port2 := if bi.1 then add_position port s (priceOf bi.2) date else port
      let r := buyPhase fetch date rest port2
      (r.1, row :: r.2.1, if bi.1 then row :: r.2.2 else r.2.2)

/-- One iteration of run_scan's sell loop: positions whose status is not OPEN are
skipped unchanged; an OPEN position is closed in place when check_sell fires,
producing a sell row. -/
def sellStep (fetch : String → List Bar) (pos : Position) :
    Position × Option SellRow :=
  if pos.status ≠ "OPEN" then (pos, none)
  else
    let r := check_sell fetch pos
    if r.1 then
      ({ pos with status := "CLOSED", sell_price := some r.2.2,
                  sell_reason := some r.2.1 },
       some { symbol := pos.symbol, exit_price := r.2.2, reason := r.2.1 })
    else (pos, none)

/-- The sell loop of run_scan over the whole loaded portfolio. -/
def sellPhase (fetch : String → List Bar) :
    List Position → List Position × List SellRow
  | [] => ([], [])
  | pos :: rest =>
    let s := sellStep fetch pos
    let r := sellPhase fetch rest
    (s.1 :: r.1, match s.2 with | some row => row :: r.2 | none => r.2)

/-- run_scan from trading_system.py with the external collaborators explicit:
`fetch` is the bar source, `date` the clock, `port0` the portfolio file at cycle
start. First the buy loop runs over the universe (mutating the portfolio via
add_position), then `load_portfolio()` re-reads the portfolio — including
positions appended during the buy loop — and the sell loop runs over it.
Returns (buy_df rows, sell_df rows, full_df rows, final portfolio file). -/
def run_scan (fetch : String → List Bar) (symbols : List String) (date : String)
    (port0 : List Position) :
    List ScanRow × List SellRow × List ScanRow × List Position :=
  let b := buyPhase fetch date symbols port0
  let s := sellPhase fetch b.1
  (b.2.2, s.2, b.2.1, s.1)

/-- A bar whose four prices all equal `c`, with volume 100: convenient building
block for concrete test series. -/
def flatBar (c : ℚ) : Bar := ⟨c, c, c, c, 100⟩

/-- The final bar of the engineered buy-signal series: open 0.005, close 0.01,
volume 1000 — a bullish candle on a 10× volume spike. -/
def lastBarA : Bar := ⟨1/200, 1/100, 1/200, 1/100, 1000⟩

/-- A 200-bar series engineered so that every check_buy rule fires on the last
bar: a long cheap stretch (keeping the 200-period average low), a plateau at
0.14 (keeping the 50-period average above it), a steady decline (driving all
three oscillators deep below their thresholds) and a final bullish volume-spike
bar closing at 0.01. -/
def dfA : List Bar :=
  List.replicate 150 (flatBar (1/100)) ++ List.replicate 36 (flatBar (14/100)) ++
  [flatBar (13/100), flatBar (12/100), flatBar (11/100), flatBar (10/100),
   flatBar (9/100), flatBar (8/100), flatBar (7/100), flatBar (6/100),
   flatBar (5/100), flatBar (4/100), flatBar (3/100), flatBar (2/100),
   flatBar (1/200), lastBarA]

/-- Fifteen rising closes ending at 90: the 14-period oscillator saturates at 100
on the latest bar while the close sits below a 93 stop-loss. -/
def dfRising : List Bar :=
  [flatBar 76, flatBar 77, flatBar 78, flatBar 79, flatBar 80, flatBar 81,
   flatBar 82, flatBar 83, flatBar 84, flatBar 85, flatBar 86, flatBar 87,
   flatBar 88, flatBar 89, flatBar 90]

/-- An open position with entry 100, stop-loss 93 and target 110. -/
def posStop : Position :=
  { symbol := "X", buy_price := 100, buy_date := "d", stop_loss := 93,
    target_price := 110, status := "OPEN" }

/-- A ten-bar flat series: too short for the 14-period oscillator and the
30-period trailing high, and flat so the oscillator is undefined either way. -/
def dfShortFlat : List Bar := List.replicate 10 (flatBar 5)

/-- Round half to even moves a rational by at most one half. -/
theorem rndHalfEven_abs (x : ℚ) : |(rndHalfEven x : ℚ) - x| ≤ 1/2 := by
  have h0 : (⌊x⌋ : ℚ) ≤ x := Int.floor_le x
  have h1 : x < ⌊x⌋ + 1 := Int.lt_floor_add_one x
  unfold rndHalfEven
  split_ifs with ha hb hc <;> rw [abs_le] <;> constructor <;> push_cast <;> linarith

/-- Rounding to two decimal places moves a rational by at most 1/200. -/
theorem round2_abs (x : ℚ) : |round2 x - x| ≤ 1/200 := by
  have h := rndHalfEven_abs (100 * x)
  have e : round2 x - x = ((rndHalfEven (100 * x) : ℚ) - 100 * x) / 100 := by
    unfold round2; ring
  rw [e, abs_div, abs_of_nonneg (by norm_num : (0:ℚ) ≤ 100)]
  rw [div_le_iff₀ (by norm_num : (0:ℚ) < 100)]
  linarith

/-- C3: for every series of fewer than 200 bars, check_buy returns the decision
NONE (False) together with the empty evidence dict, whatever the bars contain —
total, never an error. -/
theorem check_buy_insufficient_history (df : List Bar) (h : df.length < 200) :
    check_buy df = (false, none) := by
  unfold check_buy
  rw [if_pos h]

/-- Witness for C3: a 2-bar series engineered as a strong bullish spike still
yields NONE with empty evidence. -/
theorem check_buy_insufficient_history_witness :
    ([Bar.mk 1 2 1 2 100, Bar.mk 2 9 2 9 100000] : List Bar).length < 200 ∧
    check_buy [Bar.mk 1 2 1 2 100, Bar.mk 2 9 2 9 100000] = (false, none) :=
  ⟨by decide, check_buy_insufficient_history _ (by decide)⟩

/-- C4 counterexample: at entry price 100.1 the recorded stop-loss is
round(100.1 × 0.93, 2) = 93.09, not 100.1 × 0.93 = 93.093, so the stop-loss
does not equal `entry price × 0.93` exactly. The rounding here is 0.003 away
from the nearest hundredth — no decimal tie — so the idealized rounding and
Python's float rounding agree on this input. -/
theorem stop_loss_not_exact :
    (mkPosition "X" (1001/10) "d").stop_loss ≠ (1001/10 : ℚ) * (93/100) := by
  have e : (mkPosition "X" (1001/10) "d").stop_loss = 9309/100 := by
    norm_num [mkPosition, round2, rndHalfEven]
  rw [e]; norm_num

/-- C4 amended: a position created by add_position with entry price p records as
stop-loss the value p × 0.93 rounded to two decimal places and as target the
value p × 1.10 rounded to two decimal places, not the exact products: each
recorded value is within 1/200 of the exact product (the direction taken at an
exact decimal tie is decided by the float representation and is not part of
this bound). -/
theorem add_position_rounded (port : List Position) (s d : String) (p : ℚ) :
    add_position port s p d = port ++ [mkPosition s p d] ∧
    |(mkPosition s p d).stop_loss - p * (93/100)| ≤ 1/200 ∧
    |(mkPosition s p d).target_price - p * (11/10)| ≤ 1/200 :=
  ⟨rfl, round2_abs (p * (93/100)), round2_abs (p * (11/10))⟩

/-- C5 counterexample: at the positive entry price 0.01 the recorded stop-loss is
round(0.0093, 2) = 0.01, equal to the entry price, so stop-loss < entry price
fails. -/
theorem stop_loss_ordering_counterexample :
    (0:ℚ) < 1/100 ∧ ¬ (mkPosition "X" (1/100) "d").stop_loss < 1/100 := by
  have e : (mkPosition "X" (1/100) "d").stop_loss = 1/100 := by
    norm_num [mkPosition, round2, rndHalfEven]
  exact ⟨by norm_num, by rw [e]; exact lt_irrefl _⟩

/-- C5 amended: for every position created by add_position at an entry price of at
least 0.08, the ordering stop-loss < entry price < target price holds (the
two-decimal rounding of 0.93 × p and 1.10 × p cannot cross p once p ≥ 0.08). -/
theorem position_price_ordering (s d : String) (p : ℚ) (hp : 2/25 ≤ p) :
    (mkPosition s p d).stop_loss < p ∧ p < (mkPosition s p d).target_price := by
  have h1 := round2_abs (p * (93/100))
  have h2 := round2_abs (p * (11/10))
  rw [abs_le] at h1 h2
  constructor
  · show round2 (p * (93/100)) < p
    linarith [h1.2]
  · show p < round2 (p * (11/10))
    linarith [h2.1]

/-- Witness for C5 amended: at entry price 100 the stop-loss 93 and target 110
bracket the entry price. -/
theorem position_price_ordering_witness :
    (2/25 : ℚ) ≤ 100 ∧
    ((mkPosition "X" 100 "d").stop_loss < 100 ∧
     (100 : ℚ) < (mkPosition "X" 100 "d").target_price) :=
  ⟨by norm_num, position_price_ordering "X" "d" 100 (by norm_num)⟩

/-- C6: closing a position that is already CLOSED fails with an invariant error
and the orchestrator's sell loop never touches a non-OPEN position (no silent
overwrite of its exit fields), while closing an OPEN position transitions it to
CLOSED with the exit fields set, after which a second close fails — the
transition happens exactly once and is irreversible. -/
theorem close_invariant (pos : Position) (x y : ℚ) (r r2 : String)
    (fetch : String → List Bar) :
    (pos.status = "CLOSED" →
       closePos pos x r =
         Except.error "InvariantViolation: close called on a non-OPEN position" ∧
       sellStep fetch pos = (pos, none)) ∧
    (pos.status = "OPEN" →
       closePos pos x r =
         Except.ok { pos with status := "CLOSED", sell_price := some x,
                              sell_reason := some r } ∧
       closePos { pos with status := "CLOSED", sell_price := some x,
                           sell_reason := some r } y r2 =
         Except.error "InvariantViolation: close called on a non-OPEN position") := by
  constructor
  · intro h
    constructor
    · unfold closePos
      rw [if_neg (by rw [h]; decide)]
    · unfold sellStep
      rw [if_pos (by rw [h]; decide)]
  · intro h
    constructor
    · unfold closePos
      rw [if_pos h]
    · have hs : ({ pos with status := "CLOSED", sell_price := some x,
                            sell_reason := some r } : Position).status = "CLOSED" := rfl
      unfold closePos
      rw [if_neg (by rw [hs]; decide)]

/-- Witness for C6: a freshly opened position closes once, and the closed result
refuses a second close. -/
theorem close_invariant_witness :
    closePos (mkPosition "X" 100 "d") 110 "TARGET_HIT" =
      Except.ok { (mkPosition "X" 100 "d") with
                  status := "CLOSED", sell_price := some 110,
                  sell_reason := some "TARGET_HIT" } ∧
    closePos { (mkPosition "X" 100 "d") with
               status := "CLOSED", sell_price := some 110,
               sell_reason := some "TARGET_HIT" } 90 "STOP_LOSS" =
      Except.error "InvariantViolation: close called on a non-OPEN position" :=
  (close_invariant (mkPosition "X" 100 "d") 110 90 "TARGET_HIT" "STOP_LOSS"
    (fun _ => [])).2 rfl

/-- C2: check_sell tests its four exit rules in the fixed order stop-loss,
target, momentum, breakout on the latest bar, and returns the reason of the
first rule that matches; the stop-loss and target rules are decided before the
oscillator and trailing-high rules even when those also hold, and when no rule
matches the latest close is still returned with shouldExit false. -/
theorem check_sell_priority (fetch : String → List Bar) (pos : Position)
    (last : Bar) (hl : (fetch pos.symbol).getLast? = some last) :
    (last.close ≤ pos.stop_loss →
       check_sell fetch pos = (true, "STOP_LOSS", last.close)) ∧
    (pos.stop_loss < last.close → pos.target_price ≤ last.close →
       check_sell fetch pos = (true, "TARGET_HIT", last.close)) ∧
    (pos.stop_loss < last.close → last.close < pos.target_price →
       oGT (rsiLast 14 (closes (fetch pos.symbol))) 50 = true →
       check_sell fetch pos = (true, "RSI_EXIT", last.close)) ∧
    (pos.stop_loss < last.close → last.close < pos.target_price →
       oGT (rsiLast 14 (closes (fetch pos.symbol))) 50 = false →
       geO last.close (rollMaxLast 30 (highs (fetch pos.symbol))) = true →
       check_sell fetch pos = (true, "SWING_HIGH_EXIT", last.close)) ∧
    (pos.stop_loss < last.close → last.close < pos.target_price →
       oGT (rsiLast 14 (closes (fetch pos.symbol))) 50 = false →
       geO last.close (rollMaxLast 30 (highs (fetch pos.symbol))) = false →
       check_sell fetch pos = (false, "", last.close)) := by
  simp only [check_sell, hl]
  refine ⟨fun h1 => ?_, fun h1 h2 => ?_, fun h1 h2 h3 => ?_,
          fun h1 h2 h3 h4 => ?_, fun h1 h2 h3 h4 => ?_⟩
  · rw [if_pos h1]
  · rw [if_neg (not_le.mpr h1), if_pos h2]
  · rw [if_neg (not_le.mpr h1), if_neg (not_le.mpr h2), if_pos h3]
  · rw [if_neg (not_le.mpr h1), if_neg (not_le.mpr h2),
        if_neg (by rw [h3]; exact Bool.false_ne_true), if_pos h4]
  · rw [if_neg (not_le.mpr h1), if_neg (not_le.mpr h2),
        if_neg (by rw [h3]; exact Bool.false_ne_true),
        if_neg (by rw [h4]; exact Bool.false_ne_true)]

/-- Witness for C2: on a bar where the 14-period oscillator is 100 (momentum exit
would match) and the close 90 is under the stop-loss 93, the returned reason is
STOP_LOSS, not RSI_EXIT. -/
theorem check_sell_priority_witness :
    oGT (rsiLast 14 (closes (dfRising))) 50 = true ∧
    check_sell (fun _ => dfRising) posStop = (true, "STOP_LOSS", 90) :=
  ⟨by norm_num [oGT, rsiLast, closes, dfRising, flatBar, diffs, lastN, sumQ, clip0],
   (check_sell_priority (fun _ => dfRising) posStop (flatBar 90) rfl).1
     (by norm_num [flatBar, posStop])⟩

/-- C10: an undefined (NaN) 14-period oscillator on the latest bar never fires an
oscillator rule — check_buy's oversold condition is false so the decision is
NONE, and check_sell never returns reason RSI_EXIT; likewise an undefined
30-period trailing high never yields reason SWING_HIGH_EXIT. -/
theorem undefined_indicators_no_signal (df : List Bar)
    (fetch : String → List Bar) (pos : Position) :
    (rsiLast 14 (closes df) = none → (check_buy df).1 = false) ∧
    (rsiLast 14 (closes (fetch pos.symbol)) = none →
       (check_sell fetch pos).2.1 ≠ "RSI_EXIT") ∧
    (rollMaxLast 30 (highs (fetch pos.symbol)) = none →
       (check_sell fetch pos).2.1 ≠ "SWING_HIGH_EXIT") := by
  refine ⟨fun h => ?_, fun h => ?_, fun h => ?_⟩
  · simp only [check_buy]
    split
    · rfl
    · cases hgl : df.getLast? with
      | none => simp
      | some last => simp [h, oLT]
  · simp only [check_sell]
    cases hgl : (fetch pos.symbol).getLast? with
    | none => simp
    | some last =>
      rw [h]
      have hrsi : oGT (none : Option ℚ) 50 = false := rfl
      simp only [hrsi, Bool.false_eq_true, if_false]
      split_ifs <;> simp
  · simp only [check_sell]
    cases hgl : (fetch pos.symbol).getLast? with
    | none => simp
    | some last =>
      rw [h]
      have hsw : geO last.close (none : Option ℚ) = false := rfl
      simp only [hsw, Bool.false_eq_true, if_false]
      split_ifs <;> simp

/-- Witness for C10: with a 200-bar flat series the oscillator is undefined and
check_buy declines; with a 10-bar series both the oscillator and the trailing
high are undefined and neither RSI_EXIT nor SWING_HIGH_EXIT is returned. -/
theorem undefined_indicators_no_signal_witness :
    (check_buy (List.replicate 200 (flatBar 5))).1 = false ∧
    (check_sell (fun _ => dfShortFlat) posStop).2.1 ≠ "RSI_EXIT" ∧
    (check_sell (fun _ => dfShortFlat) posStop).2.1 ≠ "SWING_HIGH_EXIT" :=
  ⟨(undefined_indicators_no_signal (List.replicate 200 (flatBar 5))
      (fun _ => dfShortFlat) posStop).1
     (by norm_num [rsiLast, closes, flatBar, diffs, lastN, sumQ, clip0,
                   List.replicate]),
   (undefined_indicators_no_signal (List.replicate 200 (flatBar 5))
      (fun _ => dfShortFlat) posStop).2.1
     (by norm_num [rsiLast, closes, dfShortFlat, flatBar, diffs, lastN, sumQ,
                   clip0, List.replicate]),
   (undefined_indicators_no_signal (List.replicate 200 (flatBar 5))
      (fun _ => dfShortFlat) posStop).2.2
     (by norm_num [rollMaxLast, highs, dfShortFlat, flatBar, List.replicate])⟩

/-- C8: over a full oscillator window, a zero rolling average loss makes the
oscillator undefined (NaN, not a crash) when the average gain is also zero — the
flat-series case — and saturates it at exactly 100 when the average gain is
positive. -/
theorem rsi_flat_or_saturated (p : Nat) (cs : List ℚ) (hp : 0 < p)
    (hlen : p ≤ (diffs cs).length)
    (hloss : sumQ ((lastN p (diffs cs)).map fun x => clip0 (-x)) = 0) :
    (sumQ ((lastN p (diffs cs)).map clip0) = 0 → rsiLast p cs = none) ∧
    (0 < sumQ ((lastN p (diffs cs)).map clip0) → rsiLast p cs = some 100) := by
  have hp' : ((p : ℚ)) ≠ 0 := Nat.cast_ne_zero.mpr hp.ne'
  constructor
  · intro hg
    simp only [rsiLast]
    rw [if_pos ⟨hp, hlen⟩, hloss, zero_div, if_pos rfl, hg, zero_div, if_pos rfl]
  · intro hg
    simp only [rsiLast]
    rw [if_pos ⟨hp, hlen⟩, hloss, zero_div, if_pos rfl,
        if_neg (div_ne_zero hg.ne' hp')]

/-- Witness for C8: a twenty-bar flat series at price 5 has a full 14-period
window of zero deltas and an undefined oscillator. -/
theorem rsi_flat_witness :
    14 ≤ (diffs (List.map Bar.close (List.replicate 20 (flatBar 5)))).length ∧
    rsiLast 14 (List.map Bar.close (List.replicate 20 (flatBar 5))) = none :=
  ⟨by decide,
   (rsi_flat_or_saturated 14 (List.map Bar.close (List.replicate 20 (flatBar 5)))
      (by decide) (by decide)
      (by norm_num [diffs, lastN, sumQ, clip0, flatBar, List.replicate])).1
     (by norm_num [diffs, lastN, sumQ, clip0, flatBar, List.replicate])⟩

/-- C1: on a series of at least 200 bars, check_buy decides BUY exactly when the
four rules all hold on the most recent bar — the three oscillator thresholds,
the trend filter (close above the 200-period average or the 50-period average
above the 200-period average), the 2.5× volume spike and the two-bar bullish
candle — and the returned evidence is always the dict {price = latest close,
the 14-period oscillator value, volume divided by the 20-period average
volume}; when any rule fails the decision is NONE. -/
theorem check_buy_spec (df : List Bar) (last : Bar) (h200 : 200 ≤ df.length)
    (hl : df.getLast? = some last) :
    ((check_buy df).1 = true ↔
      ((oLT (rsiLast 14 (closes df)) 30 = true ∧
        oLT (rsiLast 7 (closes df)) 35 = true ∧
        oLT (rsiLast 30 (closes df)) 40 = true) ∧
       (gtO last.close (rollMeanLast 200 (closes df)) = true ∨
        oGTo (rollMeanLast 50 (closes df)) (rollMeanLast 200 (closes df)) = true) ∧
       gtMulO last.volume (5/2) (rollMeanLast 20 (volumes df)) = true ∧
       bullish_confirmation df = true)) ∧
    (check_buy df).2 =
      some { price := last.close, RSI14 := rsiLast 14 (closes df),
             volumeMultiple := fdiv last.volume (rollMeanLast 20 (volumes df)) } := by
  have hn : ¬ df.length < 200 := not_lt.mpr h200
  simp only [check_buy, hn, if_false, hl]
  refine ⟨?_, by simp⟩
  simp only [Bool.and_eq_true, Bool.or_eq_true]
  tauto

/-- Witness for C1: the engineered 200-bar series dfA satisfies the hypotheses of
the entry-rule characterisation with its final bar. -/
theorem check_buy_spec_witness :
    200 ≤ dfA.length ∧
    (((check_buy dfA).1 = true ↔
      ((oLT (rsiLast 14 (closes dfA)) 30 = true ∧
        oLT (rsiLast 7 (closes dfA)) 35 = true ∧
        oLT (rsiLast 30 (closes dfA)) 40 = true) ∧
       (gtO lastBarA.close (rollMeanLast 200 (closes dfA)) = true ∨
        oGTo (rollMeanLast 50 (closes dfA)) (rollMeanLast 200 (closes dfA)) = true) ∧
       gtMulO lastBarA.volume (5/2) (rollMeanLast 20 (volumes dfA)) = true ∧
       bullish_confirmation dfA = true)) ∧
    (check_buy dfA).2 =
      some { price := lastBarA.close, RSI14 := rsiLast 14 (closes dfA),
             volumeMultiple := fdiv lastBarA.volume (rollMeanLast 20 (volumes dfA)) }) :=
  ⟨by decide, check_buy_spec dfA lastBarA (by decide) rfl⟩

/-- Skipping lemma for the sell loop: a portfolio with no OPEN position passes
through run_scan's sell loop untouched and produces no sell rows. -/
theorem sellPhase_skipsClosed (fetch : String → List Bar) :
    ∀ port : List Position, (∀ pos ∈ port, pos.status ≠ "OPEN") →
      sellPhase fetch port = (port, []) := by
  intro port h
  induction port with
  | nil => rfl
  | cons p rest ih =>
    have hp : p.status ≠ "OPEN" := h p (by simp)
    have hr := ih fun q hq => h q (by simp [hq])
    simp only [sellPhase, sellStep, if_pos hp, hr]

/-- C9 counterexample: with an empty universe but a starting ledger holding one
OPEN position whose stop-loss is above the fetched close, run_scan produces a
non-empty sell table and mutates the ledger — the cycle is not a no-op for
every starting ledger state. -/
theorem run_scan_empty_universe_counterexample :
    (run_scan (fun _ => [flatBar 90]) [] "d" [posStop]).2.1 ≠ [] ∧
    (run_scan (fun _ => [flatBar 90]) [] "d" [posStop]).2.2.2 ≠ [posStop] := by
  decide

/-- C9 amended: a cycle over an empty universe always returns empty buys and an
empty trace and opens no position; its sell table and final ledger are exactly
those of the sell loop over the starting ledger, so when the starting ledger
has no OPEN positions (in particular when it is empty) the cycle also returns
empty sells and leaves the ledger unchanged. -/
theorem run_scan_empty_universe (fetch : String → List Bar) (date : String)
    (port0 : List Position) :
    (run_scan fetch [] date port0).1 = [] ∧
    (run_scan fetch [] date port0).2.2.1 = [] ∧
    (run_scan fetch [] date port0).2.1 = (sellPhase fetch port0).2 ∧
    (run_scan fetch [] date port0).2.2.2 = (sellPhase fetch port0).1 ∧
    ((∀ pos ∈ port0, pos.status ≠ "OPEN") →
       (run_scan fetch [] date port0).2.1 = [] ∧
       (run_scan fetch [] date port0).2.2.2 = port0) := by
  refine ⟨rfl, rfl, rfl, rfl, fun h => ?_⟩
  have hs := sellPhase_skipsClosed fetch port0 h
  constructor
  · show (sellPhase fetch port0).2 = []
    rw [hs]
  · show (sellPhase fetch port0).1 = port0
    rw [hs]

/-- Witness for C9 amended: an empty universe over a one-element ledger whose
position is already CLOSED yields empty buys, sells and trace and an unchanged
ledger. -/
theorem run_scan_empty_universe_witness :
    (run_scan (fun _ => []) [] "d"
       [{ posStop with status := "CLOSED" }]).2.1 = [] ∧
    (run_scan (fun _ => []) [] "d"
       [{ posStop with status := "CLOSED" }]).2.2.2 =
      [{ posStop with status := "CLOSED" }] :=
  (run_scan_empty_universe (fun _ => []) "d"
      [{ posStop with status := "CLOSED" }]).2.2.2.2
    (by intro pos hp; simp at hp; rw [hp]; decide)

/-- The buy loop only ever appends to the portfolio: its resulting ledger is the
starting ledger followed by the positions opened during the loop. -/
theorem buyPhase_opens_append (fetch : String → List Bar) (date : String) :
    ∀ (syms : List String) (port : List Position),
      ∃ opened, (buyPhase fetch date syms port).1 = port ++ opened := by
  intro syms
  induction syms with
  | nil => exact fun port => ⟨[], (List.append_nil port).symm⟩
  | cons s rest ih =>
    intro port
    simp only [buyPhase]
    by_cases he : (fetch s).isEmpty = true
    · rw [if_pos he]
      exact ih port
    · rw [if_neg he]
      by_cases hb : (check_buy (fetch s)).1 = true
      · rw [if_pos hb]
        obtain ⟨o2, h2⟩ := ih (add_position port s (priceOf (check_buy (fetch s)).2) date)
        exact ⟨mkPosition s (priceOf (check_buy (fetch s)).2) date :: o2,
               by rw [h2]; simp [add_position]⟩
      · rw [if_neg hb]
        exact ih port

/-- C7 amended: the exit phase's working set is the ledger as reloaded after the
entry phase, i.e. the starting positions plus the positions opened during this
cycle's entry phase — so a position opened in the entry phase is exit-evaluated
in the same cycle (the counterexample closes one with STOP_LOSS in the very
cycle that opened it). -/
theorem run_scan_exit_working_set (fetch : String → List Bar)
    (symbols : List String) (date : String) (port0 : List Position) :
    (run_scan fetch symbols date port0).2.1 =
      (sellPhase fetch (buyPhase fetch date symbols port0).1).2 ∧
    (run_scan fetch symbols date port0).2.2.2 =
      (sellPhase fetch (buyPhase fetch date symbols port0).1).1 ∧
    ∃ opened, (buyPhase fetch date symbols port0).1 = port0 ++ opened :=
  ⟨rfl, rfl, buyPhase_opens_append fetch date symbols port0⟩

/-- Evaluation of the 14-period oscillator on the engineered series: 25/7. -/
theorem rsiLast14_dfA : rsiLast 14 (closes dfA) = some (25/7) := by
  norm_num [rsiLast, closes, dfA, flatBar, lastBarA, diffs, lastN, sumQ, clip0,
            List.replicate]

/-- Evaluation of the 7-period oscillator on the engineered series: 50/7. -/
theorem rsiLast7_dfA : rsiLast 7 (closes dfA) = some (50/7) := by
  norm_num [rsiLast, closes, dfA, flatBar, lastBarA, diffs, lastN, sumQ, clip0,
            List.replicate]

/-- Evaluation of the 30-period oscillator on the engineered series: 25/7. -/
theorem rsiLast30_dfA : rsiLast 30 (closes dfA) = some (25/7) := by
  norm_num [rsiLast, closes, dfA, flatBar, lastBarA, diffs, lastN, sumQ, clip0,
            List.replicate]

/-- Evaluation of the 50-period moving average on the engineered series. -/
theorem ma50_dfA : rollMeanLast 50 (closes dfA) = some (1191/10000) := by
  norm_num [rollMeanLast, closes, dfA, flatBar, lastBarA, lastN, sumQ,
            List.replicate]

/-- Evaluation of the 200-period moving average on the engineered series. -/
theorem ma200_dfA : rollMeanLast 200 (closes dfA) = some (1491/40000) := by
  norm_num [rollMeanLast, closes, dfA, flatBar, lastBarA, lastN, sumQ,
            List.replicate]

/-- Evaluation of the 20-period average volume on the engineered series. -/
theorem vol20_dfA : rollMeanLast 20 (volumes dfA) = some 145 := by
  norm_num [rollMeanLast, volumes, dfA, flatBar, lastBarA, lastN, sumQ,
            List.replicate]

/-- check_buy fires on the engineered series, with price 0.01, oscillator 25/7
and volume multiple 200/29. -/
theorem check_buy_dfA :
    check_buy dfA = (true, some { price := 1/100, RSI14 := some (25/7),
                                  volumeMultiple := some (200/29) }) := by
  have hlen : ¬ dfA.length < 200 := by decide
  have h1 : dfA.getLast? = some lastBarA := rfl
  have h2 : dfA.dropLast.getLast? = some (flatBar (1/200)) := rfl
  have hcand : bullish_confirmation dfA = true := by
    simp only [bullish_confirmation, h1, h2]
    norm_num [lastBarA, flatBar]
  simp only [check_buy, if_neg hlen, h1, rsiLast14_dfA, rsiLast7_dfA,
             rsiLast30_dfA, ma50_dfA, ma200_dfA, vol20_dfA, hcand]
  norm_num [oLT, oGTo, gtO, gtMulO, fdiv, lastBarA]

/-- The position opened at price 0.01 has its stop-loss rounded back up to 0.01:
round(0.0093, 2) = 0.01. -/
theorem mkPosition_1cent_stop :
    (mkPosition "X" (1/100) "d").stop_loss = 1/100 := by
  norm_num [mkPosition, round2, rndHalfEven]

/-- C7 counterexample: starting from an empty ledger, one run_scan cycle over the
universe ["X"] with the engineered series both opens a position for X and
closes it again (reason STOP_LOSS) in the same cycle — the sell table is
non-empty although no position existed before the cycle's entry phase, so
positions opened during the entry phase are exit-evaluated in the same cycle. -/
theorem run_scan_same_cycle_exit :
    (run_scan (fun _ => dfA) ["X"] "d" []).2.1 =
      [{ symbol := "X", exit_price := 1/100, reason := "STOP_LOSS" }] ∧
    ((run_scan (fun _ => dfA) ["X"] "d" []).2.2.2).map Position.status =
      ["CLOSED"] := by
  have hne : dfA.isEmpty = false := rfl
  have h1 : dfA.getLast? = some lastBarA := rfl
  have hsym : (mkPosition "X" (1/100) "d").symbol = "X" := rfl
  have hst : (mkPosition "X" (1/100) "d").status = "OPEN" := rfl
  have hsell : check_sell (fun _ => dfA) (mkPosition "X" (1/100) "d") =
      (true, "STOP_LOSS", 1/100) := by
    simp only [check_sell, h1]
    have hcl : lastBarA.close = 1/100 := rfl
    rw [hcl, if_pos (le_of_eq mkPosition_1cent_stop.symm)]
  have hstep : sellStep (fun _ => dfA) (mkPosition "X" (1/100) "d") =
      ({ (mkPosition "X" (1/100) "d") with
         status := "CLOSED", sell_price := some (1/100),
         sell_reason := some "STOP_LOSS" },
       some { symbol := "X", exit_price := 1/100, reason := "STOP_LOSS" }) := by
    simp only [sellStep, hst, hsell, hsym]
    norm_num
  have hbp : buyPhase (fun _ => dfA) "d" ["X"] [] =
      ([mkPosition "X" (1/100) "d"],
       [{ symbol := "X", buy := true,
          info := some { price := 1/100, RSI14 := some (25/7),
                         volumeMultiple := some (200/29) } }],
       [{ symbol := "X", buy := true,
          info := some { price := 1/100, RSI14 := some (25/7),
                         volumeMultiple := some (200/29) } }]) := by
    simp only [buyPhase, hne, check_buy_dfA, add_position, priceOf,
               Bool.false_eq_true, if_false, if_true, List.nil_append]
  show ((sellPhase (fun _ => dfA) (buyPhase (fun _ => dfA) "d" ["X"] []).1).2 = _) ∧
       ((sellPhase (fun _ => dfA) (buyPhase (fun _ => dfA) "d" ["X"] []).1).1.map
          Position.status = _)
  rw [hbp]
  simp only [sellPhase, hstep, List.map_cons, List.map_nil]
  exact ⟨trivial, trivial⟩

end NSE500
